import Mathlib

/-!
# SmartDocScanner: the capture-session state machine of `static/script.js`

The script keeps its state in module globals (`currentStream`, `scannedImages`,
`currentFilter`, `currentDeviceIndex`, `videoInputDevices`) and in a handful of DOM
nodes.  Here the globals and the DOM properties the script reads or writes are the
fields of one record, `State`, and every function or event handler of the script is
a function `State → State`.

An `async` handler runs to completion up to its first `await`, and its continuation
runs later as an event of its own.  Each such handler is therefore embedded as two
functions: the part before the `await` (named after the handler) and the part after
it (`…Resume`), which takes the outcome of the awaited platform call as an argument.
Between the two any other event may be processed, as in the browser's event loop.
-/

namespace SmartDocScanner

/-! ## Data -/

/-- One entry of `navigator.mediaDevices.enumerateDevices()`. -/
structure MediaDeviceInfo where
  deviceId : String
  kind : String
  label : String
deriving DecidableEq, Repr

/-- A stream handed out by `getUserMedia`.  `stopped` records that `track.stop()` has
been called on its tracks; `deviceId` is the device constraint it was requested
with. -/
structure MediaStream where
  id : Nat
  deviceId : String
  stopped : Bool
deriving DecidableEq, Repr

/-- The JSON body of a `/process` response, as read by the capture handler and by
`addScanToGallery` (`success`, `filename`, `url`, `detected`, `error`). -/
structure ScanData where
  success : Bool
  filename : String
  url : String
  detected : Bool
  error : String
deriving DecidableEq, Repr

/-- A thumbnail `div.gallery-item` built by `addScanToGallery`: the `src` of its image
and the filename written into the `onclick` of its delete button. -/
structure GalleryItem where
  url : String
  filename : String
deriving DecidableEq, Repr

/-- What awaiting `fetch('/process')` followed by `response.json()` can produce: the
fetch rejects, the body is not JSON, or a JSON body arrives. -/
inductive ProcessOutcome where
  | fetchRejected
  | jsonRejected
  | body (result : ScanData)
deriving DecidableEq, Repr

/-- What awaiting `fetch('/compile')` followed by `response.json()` can produce. -/
inductive CompileOutcome where
  | fetchRejected
  | jsonRejected
  | body (success : Bool) (download_url : String)
deriving DecidableEq, Repr

/-- The globals of the script, the DOM properties it touches, and a log of its calls
into the platform. -/
structure State where
  /-- Global `currentStream`: the id of the stream held, `none` for `null`. -/
  currentStream : Option Nat
  /-- Global `scannedImages`: list of filenames. -/
  scannedImages : List String
  /-- Global `currentFilter`. -/
  currentFilter : String
  /-- Global `currentDeviceIndex`. -/
  currentDeviceIndex : Nat
  /-- Global `videoInputDevices`. -/
  videoInputDevices : List MediaDeviceInfo
  /-- The `option` children of `cameraSelect`, as (value, text). -/
  selectOptions : List (String × String)
  /-- The property `cameraSelect.value`. -/
  selectValue : String
  /-- The property `video.srcObject`. -/
  videoSrcObject : Option Nat
  /-- The thumbnails among the children of `gallery`, in document order. -/
  galleryItems : List GalleryItem
  /-- The number written to `pageCountSpan.innerText`. -/
  pageCountText : Nat
  /-- The property `compileBtn.disabled`. -/
  compileDisabled : Bool
  /-- The property `compileBtn.innerHTML`. -/
  compileHTML : String
  /-- The property `captureBtn.disabled`. -/
  captureDisabled : Bool
  /-- The property `captureBtn.innerHTML`. -/
  captureHTML : String
  /-- The property `emptyState.style.display`. -/
  emptyStateDisplay : String
  /-- The property `window.location.href` when the script has assigned it. -/
  href : Option String
  /-- Log: the calls of `showToast`, as (message, type). -/
  toasts : List (String × String)
  /-- Log: the calls of `alert`. -/
  alerts : List String
  /-- Log: the calls of `console.error`. -/
  consoleErrors : List String
  /-- Platform: every stream `getUserMedia` has handed out so far. -/
  streams : List MediaStream
  /-- Platform: the device constraints of the `getUserMedia` calls not yet settled. -/
  pendingMedia : List String
  /-- Log: the bodies (image, filter) posted to `/process`. -/
  processRequests : List (String × String)
  /-- Log: the `filenames` posted to `/compile`. -/
  compileRequests : List (List String)
  /-- Platform: the number of `/compile` requests whose response is not yet handled. -/
  compileInFlight : Nat
  /-- Log: the number of calls of `addScanToGallery`. -/
  addCalls : Nat
deriving DecidableEq, Repr

/-! ## Helpers of the script -/

/-- The function `showToast(message, type)`: appends a toast to the document. -/
def showToast (message type : String) (s : State) : State :=
  { s with toasts := s.toasts ++ [(message, type)] }

/-- The function `updateStats()`. -/
def updateStats (s : State) : State :=
  { s with
    pageCountText := s.scannedImages.length
    compileDisabled := decide (s.scannedImages.length = 0) }

/-! ## Gallery -/

/-- The function `addScanToGallery(scanData)`: `push` the filename, `updateStats()`,
build the thumbnail, hide the empty state when the list has just reached length 1,
and insert the thumbnail before `gallery.firstChild`. -/
def addScanToGallery (scanData : ScanData) (s : State) : State :=
  let s1 := { s with
    scannedImages := s.scannedImages ++ [scanData.filename]
    addCalls := s.addCalls + 1 }
  let s2 := updateStats s1
  let div : GalleryItem := { url := scanData.url, filename := scanData.filename }
  let s3 := if s2.scannedImages.length = 1 then { s2 with emptyStateDisplay := "none" } else s2
  { s3 with galleryItems := div :: s3.galleryItems }

/-- The function `window.removeScan(filename, btnElement)`.  The button is given by the
position `idx` of its thumbnail among the thumbnails of the gallery; removing a
node that is no longer in the document changes nothing. -/
def removeScan (filename : String) (idx : Nat) (s : State) : State :=
  let s1 := { s with scannedImages := s.scannedImages.filter (fun f => f != filename) }
  let s2 := { s1 with galleryItems := s1.galleryItems.eraseIdx idx }
  let s3 := updateStats s2
  if s3.scannedImages.length = 0 then { s3 with emptyStateDisplay := "flex" } else s3

/-- A click on the delete button of the thumbnail at position `idx`.  The thumbnail was
built from the markup `onclick="removeScan('${scanData.filename}', this)"`, so the
filename is pasted into the source text of the handler: what `removeScan` receives
is the filename after the browser has decoded the HTML attribute and parsed the
JavaScript string literal.  That reading belongs to the platform and is the
parameter `argument`: `argument f = some g` when the handler built from the
filename `f` calls `removeScan(g, this)`, and `argument f = none` when the handler
source does not parse, in which case the click runs nothing.  A filename whose
handler source amounts to anything but one such call is not covered. -/
def deleteClick (argument : String → Option String) (idx : Nat) (s : State) : State :=
  match s.galleryItems[idx]? with
  | some item =>
    match argument item.filename with
    | some filename => removeScan filename idx s
    | none => s
  | none => s

/-- The characters that neither HTML attribute decoding nor JavaScript string-literal
parsing treats specially and that server-assigned filenames are made of: ASCII
letters, digits, dot, underscore and hyphen. -/
def plainChar (c : Char) : Bool :=
  c.isAlphanum || c == '.' || c == '_' || c == '-'

/-- A reading of the inline handler that is exact on filenames made of plain
characters only: for those the handler source is `removeScan('<filename>', this)`
with nothing to decode, and the call receives the filename itself.  On any other
filename this reading lets the click run nothing; the sessions evaluated below
only hold filenames of plain characters. -/
def plainArgument (f : String) : Option String :=
  if f.data.all plainChar then some f else none

/-- The empty-state indicator is displayed unless its `display` is `none`. -/
def emptyStateShown (s : State) : Bool :=
  s.emptyStateDisplay != "none"

/-- The order in which the gallery shows the pages, first to last. -/
def displayedFilenames (s : State) : List String :=
  s.galleryItems.map (fun item => item.filename)

/-! ## Capture -/

/-- A click on a filter button whose `data-filter` is `filter`. -/
def filterClick (filter : String) (s : State) : State :=
  { s with currentFilter := filter }

/-- The capture click handler up to `await fetch('/process', …)`; `base64Image` is what
`canvas.toDataURL` returned.  The value of the local `originalText` is the
`captureBtn.innerHTML` of the state the handler starts in. -/
def captureHandler (base64Image : String) (s : State) : State :=
  { s with
    captureHTML := "<ion-icon name=\"hourglass\"></ion-icon> Processing..."
    captureDisabled := true
    processRequests := s.processRequests ++ [(base64Image, s.currentFilter)] }

/-- A click on `captureBtn` (or on `captureMobileBtn`, which forwards to it): a disabled
button dispatches no click. -/
def captureClick (base64Image : String) (s : State) : State :=
  if s.captureDisabled then s else captureHandler base64Image s

/-- The capture click handler after the awaits: the `try` body on a JSON result, the
`catch` on a rejection, then the `finally`. -/
def captureResume (originalText : String) (outcome : ProcessOutcome) (s : State) : State :=
  let s1 :=
    match outcome with
    | .body result =>
      if result.success then
        let s2 := addScanToGallery result s
        if !result.detected then
          showToast "No document detected - saved full frame" "warning" s2
        else
          showToast "Document scanned successfully!" "success" s2
      else
        showToast ("Processing failed: " ++ result.error) "error" s
    | _ =>
      showToast "Server error" "error" { s with consoleErrors := s.consoleErrors ++ ["err"] }
  { s1 with captureHTML := originalText, captureDisabled := false }

/-! ## Compile -/

/-- The compile click handler up to `await fetch('/compile', …)`: the request body is
`scannedImages` as it is at that moment. -/
def compileHandler (s : State) : State :=
  { s with
    compileHTML := "<ion-icon name=\"sync\"></ion-icon> Compiling..."
    compileDisabled := true
    compileRequests := s.compileRequests ++ [s.scannedImages]
    compileInFlight := s.compileInFlight + 1 }

/-- A click on `compileBtn`: a disabled button dispatches no click. -/
def compileClick (s : State) : State :=
  if s.compileDisabled then s else compileHandler s

/-- The compile click handler after the awaits, for a request that is outstanding. -/
def compileResume (outcome : CompileOutcome) (s : State) : State :=
  if s.compileInFlight = 0 then s
  else
    let s1 :=
      match outcome with
      | .body success download_url =>
        if success then showToast "PDF Downloaded!" "success" { s with href := some download_url }
        else showToast "Compilation error" "error" s
      | _ => showToast "Server error" "error" s
    { s1 with
      compileHTML := "<ion-icon name=\"document-text\"></ion-icon> Download PDF"
      compileDisabled := false
      compileInFlight := s1.compileInFlight - 1 }

/-! ## Camera -/

/-- The effect of `stream.getTracks().forEach(track => track.stop())` on the stream
`id`. -/
def stopTracks (id : Nat) (streams : List MediaStream) : List MediaStream :=
  streams.map (fun m => if m.id = id then { m with stopped := true } else m)

/-- The function `startCamera(deviceId)` up to `await getUserMedia(…)`: stop the tracks
of `currentStream` if there is one, then request a stream. -/
def startCamera (deviceId : String) (s : State) : State :=
  let s1 :=
    match s.currentStream with
    | some id => { s with streams := stopTracks id s.streams }
    | none => s
  { s1 with pendingMedia := s1.pendingMedia ++ [deviceId] }

/-- The function `startCamera` after the await, for the pending request at position `i`:
on a grant the platform hands out a fresh stream, which becomes `video.srcObject`
and `currentStream`; on a rejection the error is logged. -/
def startCameraResume (i : Nat) (granted : Bool) (s : State) : State :=
  match s.pendingMedia[i]? with
  | none => s
  | some deviceId =>
    let s1 := { s with pendingMedia := s.pendingMedia.eraseIdx i }
    if granted then
      let stream : MediaStream := { id := s1.streams.length, deviceId := deviceId, stopped := false }
      { s1 with
        streams := s1.streams ++ [stream]
        videoSrcObject := some stream.id
        currentStream := some stream.id }
    else
      { s1 with consoleErrors := s1.consoleErrors ++ ["Error starting camera:"] }

/-- Assigning `cameraSelect.value`: the value sticks when an option carries it,
otherwise no option is selected and the value reads as the empty string. -/
def setSelectValue (value : String) (s : State) : State :=
  { s with selectValue := if (s.selectOptions.map Prod.fst).contains value then value else "" }

/-- The text of the option built for the device at position `index`:
`device.label || 'Camera ' + (index + 1)`. -/
def optionText (device : MediaDeviceInfo) (index : Nat) : String :=
  if device.label = "" then "Camera " ++ toString (index + 1) else device.label

/-- The function `getCameras()` after `await enumerateDevices()`; `none` is a rejected
enumeration. -/
def getCamerasResume (result : Option (List MediaDeviceInfo)) (s : State) : State :=
  match result with
  | none =>
    { s with
      consoleErrors := s.consoleErrors ++ ["Error enumerating devices:"]
      alerts := s.alerts ++ ["Camera permission denied or not available."] }
  | some devices =>
    let videoDevices := devices.filter (fun device => device.kind == "videoinput")
    let options := videoDevices.enum.map (fun p => (p.2.deviceId, optionText p.2 p.1))
    let s1 := { s with
      selectOptions := options
      selectValue := (options.head?.map Prod.fst).getD "" }
    match videoDevices with
    | device :: _ => startCamera device.deviceId s1
    | [] => { s1 with alerts := s1.alerts ++ ["No cameras found."] }

/-- The `change` handler of `cameraSelect`: `startCamera(e.target.value)`. -/
def cameraSelectChange (value : String) (s : State) : State :=
  startCamera value { s with selectValue := value }

/-- The function `updateDeviceList()` after `await enumerateDevices()`. -/
def updateDeviceList (devices : List MediaDeviceInfo) (s : State) : State :=
  { s with videoInputDevices := devices.filter (fun device => device.kind == "videoinput") }

/-- The flip click handler after `await updateDeviceList()`, `devices` being what the
platform enumerated. -/
def flipResume (devices : List MediaDeviceInfo) (s : State) : State :=
  let s1 := updateDeviceList devices s
  if h : s1.videoInputDevices.length < 2 then
    showToast "Only one camera found" "info" s1
  else
    let index := (s1.currentDeviceIndex + 1) % s1.videoInputDevices.length
    let s2 := { s1 with currentDeviceIndex := index }
    let nextDeviceId :=
      (s1.videoInputDevices.get ⟨index, Nat.mod_lt _ (by omega)⟩).deviceId
    startCamera nextDeviceId (setSelectValue nextDeviceId s2)

/-- The streams handed out whose tracks have not been stopped. -/
def liveStreams (s : State) : List MediaStream :=
  s.streams.filter (fun m => !m.stopped)

/-- The device whose stream the script holds in `currentStream`, if that stream is
live. -/
def activeDevice (s : State) : Option String :=
  match s.currentStream with
  | none => none
  | some id => (s.streams.find? (fun m => m.id == id && !m.stopped)).map (fun m => m.deviceId)

/-- The cyclic successor of the device `current` in `devices`: the id at position
(index of `current` + 1) mod length. -/
def cyclicSuccessor (current : String) (devices : List MediaDeviceInfo) : Option String :=
  let ids := devices.map (fun device => device.deviceId)
  ids[(ids.indexOf current + 1) % ids.length]?

/-! ## The page at load -/

/-- Modelled from the spec: the static HTML page is not part of the sources, so the
DOM at load is taken from the spec's description of a fresh session: no thumbnails,
page count 0, compile control disabled, capture control enabled, empty-state
indicator displayed (no inline `display`).  The compile button carries the label
its handler restores; the markup of the capture button is not known and is left
empty.  The script globals are the initial values of the `let` declarations at the
top of the script. -/
def initialState : State :=
  { currentStream := none
    scannedImages := []
    currentFilter := "bw"
    currentDeviceIndex := 0
    videoInputDevices := []
    selectOptions := []
    selectValue := ""
    videoSrcObject := none
    galleryItems := []
    pageCountText := 0
    compileDisabled := true
    compileHTML := "<ion-icon name=\"document-text\"></ion-icon> Download PDF"
    captureDisabled := false
    captureHTML := ""
    emptyStateDisplay := ""
    href := none
    toasts := []
    alerts := []
    consoleErrors := []
    streams := []
    pendingMedia := []
    processRequests := []
    compileRequests := []
    compileInFlight := 0
    addCalls := 0 }

/-! ## Sequences of gallery operations -/

/-- A call of one of the two gallery functions. -/
inductive GalleryOp where
  | add (scanData : ScanData)
  | remove (filename : String) (idx : Nat)
deriving DecidableEq, Repr

/-- Run one gallery call. -/
def GalleryOp.apply : GalleryOp → State → State
  | .add scanData, s => addScanToGallery scanData s
  | .remove filename idx, s => removeScan filename idx s

/-- Run a sequence of gallery calls, first to last. -/
def runOps (s : State) (ops : List GalleryOp) : State :=
  ops.foldl (fun st op => op.apply st) s

/-- A user-level gallery event: a successful scan arrives, or the delete button of the
thumbnail at a position is clicked. -/
inductive GalleryEvent where
  | scanned (scanData : ScanData)
  | delete (idx : Nat)
deriving DecidableEq, Repr

/-- Run one gallery event; `argument` is the platform's reading of the inline delete
handlers (see `deleteClick`). -/
def GalleryEvent.apply (argument : String → Option String) : GalleryEvent → State → State
  | .scanned scanData, s => addScanToGallery scanData s
  | .delete idx, s => deleteClick argument idx s

/-- Run a sequence of gallery events, first to last. -/
def runEvents (argument : String → Option String) (s : State) (evs : List GalleryEvent) :
    State :=
  evs.foldl (fun st ev => ev.apply argument st) s

/-- The filenames of the scans that arrive in a sequence of gallery events. -/
def scannedNames : List GalleryEvent → List String
  | [] => []
  | .scanned scanData :: evs => scanData.filename :: scannedNames evs
  | .delete _ :: evs => scannedNames evs

/-- The pages of a session, oldest first, described without reference to the script: a
scan puts its page after all the pages held; a delete click on the thumbnail shown
at position `idx`, counted from the most recent page, takes that page out and
keeps the others in order. -/
def pagesOldestFirst (pages : List String) : List GalleryEvent → List String
  | [] => pages
  | .scanned scanData :: evs => pagesOldestFirst (pages ++ [scanData.filename]) evs
  | .delete idx :: evs => pagesOldestFirst (pages.reverse.eraseIdx idx).reverse evs

/-- A successful `/process` result for the page `name`. -/
def page (name : String) : ScanData :=
  { success := true, filename := name, url := "/scans/" ++ name, detected := true, error := "" }

/-- A video input device with id `id`. -/
def camera (id : String) : MediaDeviceInfo :=
  { deviceId := id, kind := "videoinput", label := "" }

/-! ## Concrete sessions -/

/-- Two video input devices, `A` then `B`, as the platform enumerates them. -/
def twoCameras : List MediaDeviceInfo :=
  [camera "A", camera "B"]

/-- The page after `getCameras()` has enumerated `twoCameras` and the stream it requests
for the first device has been granted. -/
def startedOnA : State :=
  startCameraResume 0 true (getCamerasResume (some twoCameras) initialState)

/-- A flip click whose device enumeration yields `devices`, followed by the grant of the
stream it requests. -/
def flipGranted (devices : List MediaDeviceInfo) (s : State) : State :=
  startCameraResume 0 true (flipResume devices s)

/-- The user picks `value` in the camera dropdown, and the stream requested is
granted. -/
def selectGranted (value : String) (s : State) : State :=
  startCameraResume 0 true (cameraSelectChange value s)

/-- The page after one successful scan, `p1.jpg`, and a click on the compile button
whose response has not arrived yet. -/
def compiling : State :=
  compileClick (addScanToGallery (page "p1.jpg") initialState)

/-! ## Lemmas on lists -/

/-- Filtering out a value that occurs at most once is erasing its first occurrence. -/
theorem filter_ne_eq_erase (f : String) (l : List String) (h : l.count f ≤ 1) :
    l.filter (fun g => g != f) = l.erase f := by
  induction l with
  | nil => rfl
  | cons x xs ih =>
    by_cases hx : x = f
    · subst hx
      have h0 : xs.count x = 0 := by
        simp only [List.count_cons_self] at h
        omega
      have hmem : x ∉ xs := List.count_eq_zero.mp h0
      have hfil : xs.filter (fun g => g != x) = xs := by
        apply List.filter_eq_self.mpr
        intro a ha
        have : a ≠ x := fun e => hmem (e ▸ ha)
        simpa using this
      simp [hfil]
    · have hc : xs.count f ≤ 1 := by
        rw [List.count_cons_of_ne (fun e => hx e.symm)] at h
        exact h
      have hb : (x != f) = true := by simpa using hx
      have hbe : ¬ (x == f) = true := by simpa using hx
      rw [List.erase_cons_tail hbe, ← ih hc]
      simp [List.filter_cons, hb]

/-- In a list without duplicates, erasing the position that holds `f` is filtering out
`f`. -/
theorem eraseIdx_eq_filter_ne (l : List String) (hl : l.Nodup) (i : Nat) (f : String)
    (hi : l[i]? = some f) : l.eraseIdx i = l.filter (fun g => g != f) := by
  induction l generalizing i with
  | nil => simp at hi
  | cons x xs ih =>
    have hx : x ∉ xs := (List.nodup_cons.mp hl).1
    have hxs : xs.Nodup := (List.nodup_cons.mp hl).2
    cases i with
    | zero =>
      have hxf : x = f := by simpa using hi
      subst hxf
      have hfil : xs.filter (fun g => g != x) = xs := by
        apply List.filter_eq_self.mpr
        intro a ha
        have : a ≠ x := fun e => hx (e ▸ ha)
        simpa using this
      simp [hfil]
    | succ j =>
      have hj : xs[j]? = some f := by simpa using hi
      have hfm : f ∈ xs := by
        obtain ⟨hlt, he⟩ := List.getElem?_eq_some.mp hj
        exact he ▸ List.getElem_mem hlt
      have hne : x ≠ f := fun e => hx (e ▸ hfm)
      have hb : (x != f) = true := by simpa using hne
      rw [List.eraseIdx_cons_succ, ih hxs j hj]
      simp [List.filter_cons, hb]

/-- Erasing a position commutes with reading the filenames of the thumbnails. -/
theorem map_filename_eraseIdx (items : List GalleryItem) (i : Nat) :
    (items.eraseIdx i).map (fun item => item.filename)
      = (items.map (fun item => item.filename)).eraseIdx i := by
  induction items generalizing i with
  | nil => rfl
  | cons x xs ih =>
    cases i with
    | zero => rfl
    | succ j => simp [List.eraseIdx_cons_succ, ih]

/-! ## Lemmas on the gallery functions -/

/-- The filename list after `addScanToGallery`. -/
theorem addScanToGallery_scannedImages (r : ScanData) (s : State) :
    (addScanToGallery r s).scannedImages = s.scannedImages ++ [r.filename] := by
  unfold addScanToGallery updateStats
  dsimp only
  split <;> rfl

/-- The thumbnails after `addScanToGallery`. -/
theorem addScanToGallery_galleryItems (r : ScanData) (s : State) :
    (addScanToGallery r s).galleryItems = ⟨r.url, r.filename⟩ :: s.galleryItems := by
  unfold addScanToGallery updateStats
  dsimp only
  split <;> rfl

/-- The filename list after `removeScan`. -/
theorem removeScan_scannedImages (f : String) (i : Nat) (s : State) :
    (removeScan f i s).scannedImages = s.scannedImages.filter (fun g => g != f) := by
  unfold removeScan updateStats
  dsimp only
  split <;> rfl

/-- The thumbnails after `removeScan`. -/
theorem removeScan_galleryItems (f : String) (i : Nat) (s : State) :
    (removeScan f i s).galleryItems = s.galleryItems.eraseIdx i := by
  unfold removeScan updateStats
  dsimp only
  split <;> rfl

/-- Both gallery functions leave the page count and the compile control as
`updateStats` sets them. -/
theorem apply_stats (op : GalleryOp) (s : State) :
    (op.apply s).pageCountText = (op.apply s).scannedImages.length ∧
    ((op.apply s).compileDisabled = false ↔ 0 < (op.apply s).scannedImages.length) := by
  cases op with
  | add r =>
    simp only [GalleryOp.apply, addScanToGallery, updateStats]
    split <;> simp
  | remove f i =>
    simp only [GalleryOp.apply, removeScan, updateStats]
    split <;> simp [Nat.pos_iff_ne_zero]

/-- Both gallery functions keep the empty-state indicator in step with the filename
list. -/
theorem apply_emptyState (op : GalleryOp) (s : State)
    (h : emptyStateShown s = true ↔ s.scannedImages = []) :
    emptyStateShown (op.apply s) = true ↔ (op.apply s).scannedImages = [] := by
  cases op with
  | add r =>
    simp only [GalleryOp.apply, addScanToGallery, updateStats]
    split
    · simp [emptyStateShown]
    · rename_i hlen
      have hne : s.scannedImages ≠ [] := by
        intro e
        apply hlen
        simp [e]
      have hs : ¬ emptyStateShown s = true := fun hsh => hne (h.mp hsh)
      simpa [emptyStateShown] using hs
  | remove f i =>
    simp only [GalleryOp.apply, removeScan, updateStats]
    split
    · rename_i hlen
      simpa [emptyStateShown] using hlen
    · rename_i hlen
      have hne : s.scannedImages ≠ [] := by
        intro e
        apply hlen
        simp [e]
      have hs : ¬ emptyStateShown s = true := fun hsh => hne (h.mp hsh)
      have hfil : ¬ List.filter (fun g => g != f) s.scannedImages = [] := by
        intro e
        apply hlen
        simp [e]
      simp only [hfil, iff_false]
      simpa [emptyStateShown] using hs

/-- The empty-state invariant along a sequence of gallery calls. -/
theorem runOps_emptyState (ops : List GalleryOp) (s : State)
    (h : emptyStateShown s = true ↔ s.scannedImages = []) :
    emptyStateShown (runOps s ops) = true ↔ (runOps s ops).scannedImages = [] := by
  induction ops generalizing s with
  | nil => exact h
  | cons op ops ih => exact ih (op.apply s) (apply_emptyState op s h)

/-! ## The gallery: order, removal, derived controls -/

/-- C1, as stated, fails: after scanning `a.jpg` and then `b.jpg` the filename list is
`[a.jpg, b.jpg]`, so the page just added is not its first element and the earlier
entry does not follow it. -/
theorem addScanToGallery_not_first :
    (addScanToGallery (page "b.jpg")
        (addScanToGallery (page "a.jpg") initialState)).scannedImages = ["a.jpg", "b.jpg"] ∧
    (addScanToGallery (page "b.jpg")
        (addScanToGallery (page "a.jpg") initialState)).scannedImages
      ≠ "b.jpg" :: (addScanToGallery (page "a.jpg") initialState).scannedImages := by
  decide

/-- C1, amended: for every state and every scan record, after `addScanToGallery` the
filename of the record is the last element of `scannedImages`, with all earlier
entries before it in their previous order; it is in the displayed gallery that the
new page comes first, followed by the earlier thumbnails in their previous order. -/
theorem addScanToGallery_appends (s : State) (r : ScanData) :
    (addScanToGallery r s).scannedImages.getLast? = some r.filename ∧
    (addScanToGallery r s).scannedImages.dropLast = s.scannedImages ∧
    (addScanToGallery r s).scannedImages = s.scannedImages ++ [r.filename] ∧
    displayedFilenames (addScanToGallery r s) = r.filename :: displayedFilenames s := by
  refine ⟨?_, ?_, addScanToGallery_scannedImages r s, ?_⟩
  · rw [addScanToGallery_scannedImages]
    simp
  · rw [addScanToGallery_scannedImages]
    simp
  · simp [displayedFilenames, addScanToGallery_galleryItems]

/-- C2, as stated, fails: removing `a.jpg` from `[a.jpg, b.jpg, a.jpg]` leaves `[b.jpg]`,
whereas erasing only the first entry equal to it would leave `[b.jpg, a.jpg]`. -/
theorem removeScan_not_first_only :
    (removeScan "a.jpg" 0
        { initialState with scannedImages := ["a.jpg", "b.jpg", "a.jpg"] }).scannedImages
      = ["b.jpg"] ∧
    (removeScan "a.jpg" 0
        { initialState with scannedImages := ["a.jpg", "b.jpg", "a.jpg"] }).scannedImages
      ≠ List.erase ["a.jpg", "b.jpg", "a.jpg"] "a.jpg" := by
  decide

/-- C2, amended: for every filename list and every filename `f`, `removeScan` yields the
list with every entry equal to `f` erased: no entry equal to `f` is left, the
result is a sublist of the original (so the kept entries are in their original
order), exactly the occurrences of `f` are missing, every other filename occurs as
often as before, the list is unchanged if `f` does not occur in it, and when `f`
occurs at most once the result is the list with the first entry equal to `f`
erased. -/
theorem removeScan_erases_all (s : State) (f : String) (i : Nat) :
    f ∉ (removeScan f i s).scannedImages ∧
    (removeScan f i s).scannedImages.Sublist s.scannedImages ∧
    (removeScan f i s).scannedImages.length + s.scannedImages.count f
      = s.scannedImages.length ∧
    (∀ g, g ≠ f → (removeScan f i s).scannedImages.count g = s.scannedImages.count g) ∧
    (f ∉ s.scannedImages → (removeScan f i s).scannedImages = s.scannedImages) ∧
    (s.scannedImages.count f ≤ 1 →
      (removeScan f i s).scannedImages = s.scannedImages.erase f) := by
  rw [removeScan_scannedImages]
  refine ⟨?_, List.filter_sublist _, ?_, ?_, ?_, filter_ne_eq_erase f _⟩
  · simp [List.mem_filter]
  · induction s.scannedImages with
    | nil => rfl
    | cons x xs ih =>
      by_cases hx : x = f
      · subst hx
        simp only [List.count_cons_self, List.length_cons]
        have : List.filter (fun g => g != x) (x :: xs) = List.filter (fun g => g != x) xs := by
          simp [List.filter_cons]
        rw [this]
        omega
      · have hb : (x != f) = true := by simpa using hx
        rw [List.count_cons_of_ne (fun e => hx e.symm)]
        have : List.filter (fun g => g != f) (x :: xs)
            = x :: List.filter (fun g => g != f) xs := by
          simp [List.filter_cons, hb]
        rw [this]
        simp only [List.length_cons]
        omega
  · intro g hg
    apply List.count_filter
    simpa using hg
  · intro hf
    apply List.filter_eq_self.mpr
    intro a ha
    have : a ≠ f := fun e => hf (e ▸ ha)
    simpa using this

/-- Witness of C2, amended: `c.jpg` does not occur in `[a.jpg, b.jpg]`, and removing it
leaves the list unchanged; `a.jpg` occurs once, and removing it erases it. -/
theorem removeScan_erases_all_witness :
    (removeScan "c.jpg" 0
        { initialState with scannedImages := ["a.jpg", "b.jpg"] }).scannedImages
      = ["a.jpg", "b.jpg"] ∧
    (removeScan "a.jpg" 0
        { initialState with scannedImages := ["a.jpg", "b.jpg"] }).scannedImages
      = List.erase ["a.jpg", "b.jpg"] "a.jpg" :=
  ⟨(removeScan_erases_all
      { initialState with scannedImages := ["a.jpg", "b.jpg"] } "c.jpg" 0).2.2.2.2.1
      (by decide),
   (removeScan_erases_all
      { initialState with scannedImages := ["a.jpg", "b.jpg"] } "a.jpg" 0).2.2.2.2.2
      (by decide)⟩

/-- C3: for every starting state and every finite sequence of `addScanToGallery` and
`removeScan` calls, after each call (that is, after every non-empty prefix
`ops ++ [op]` of the sequence) the displayed page count equals the length of the
filename list, and the compile control is enabled if and only if that length is
greater than 0. -/
theorem stats_after_each_operation (s : State) (ops : List GalleryOp) (op : GalleryOp) :
    (runOps s (ops ++ [op])).pageCountText = (runOps s (ops ++ [op])).scannedImages.length ∧
    ((runOps s (ops ++ [op])).compileDisabled = false ↔
      0 < (runOps s (ops ++ [op])).scannedImages.length) := by
  have h : runOps s (ops ++ [op]) = op.apply (runOps s ops) := by
    simp [runOps, List.foldl_append]
  rw [h]
  exact apply_stats op (runOps s ops)

/-- C10: starting from an empty filename list with the empty-state indicator shown,
after every finite sequence of `addScanToGallery` and `removeScan` calls the
indicator is shown if and only if the filename list is empty; in particular
removing the only remaining record shows it, and adding to an empty gallery hides
it. -/
theorem emptyState_iff_empty (s : State) (hs : s.scannedImages = [])
    (hshown : emptyStateShown s = true) (ops : List GalleryOp) :
    (emptyStateShown (runOps s ops) = true ↔ (runOps s ops).scannedImages = []) ∧
    (∀ r, emptyStateShown (addScanToGallery r s) = false) ∧
    (∀ r i, emptyStateShown (removeScan r.filename i (addScanToGallery r s)) = true) := by
  have h0 : emptyStateShown s = true ↔ s.scannedImages = [] := ⟨fun _ => hs, fun _ => hshown⟩
  refine ⟨runOps_emptyState ops s h0, ?_, ?_⟩
  · intro r
    have h1 := apply_emptyState (.add r) s h0
    simp only [GalleryOp.apply] at h1
    have hne : (addScanToGallery r s).scannedImages ≠ [] := by
      rw [addScanToGallery_scannedImages]
      simp
    cases hb : emptyStateShown (addScanToGallery r s) with
    | false => rfl
    | true => exact absurd (h1.mp hb) hne
  · intro r i
    have h1 := apply_emptyState (.add r) s h0
    have h2 := apply_emptyState (.remove r.filename i) _ h1
    simp only [GalleryOp.apply] at h2
    apply h2.mpr
    rw [removeScan_scannedImages, addScanToGallery_scannedImages, hs]
    simp

/-- Witness of C10: from the page at load, after scanning two pages and deleting both
the list is empty and the indicator is shown. -/
theorem emptyState_iff_empty_witness :
    initialState.scannedImages = [] ∧ emptyStateShown initialState = true ∧
    (emptyStateShown (runOps initialState
        [.add (page "a.jpg"), .add (page "b.jpg"), .remove "b.jpg" 0, .remove "a.jpg" 0]) = true ↔
      (runOps initialState
        [.add (page "a.jpg"), .add (page "b.jpg"), .remove "b.jpg" 0, .remove "a.jpg" 0]).scannedImages
        = []) :=
  ⟨rfl, by decide,
   (emptyState_iff_empty initialState rfl (by decide)
      [.add (page "a.jpg"), .add (page "b.jpg"), .remove "b.jpg" 0, .remove "a.jpg" 0]).1⟩

/-! ## Capture -/

/-- C4: for every outcome of a capture request, the capture handler calls
`addScanToGallery` exactly once when the response has `success` true, whether
`detected` is true or false (the call counter goes up by one, and the list and
the thumbnails are those `addScanToGallery` produces), and zero times, leaving the
filename list and the thumbnails unchanged, when the response has `success` false
or the request fails in transport or in JSON decoding. -/
theorem capture_adds_once_iff_success (s : State) (originalText : String) :
    (∀ r : ScanData, r.success = true →
      (captureResume originalText (.body r) s).addCalls = s.addCalls + 1 ∧
      (captureResume originalText (.body r) s).scannedImages
        = (addScanToGallery r s).scannedImages ∧
      (captureResume originalText (.body r) s).galleryItems
        = (addScanToGallery r s).galleryItems) ∧
    (∀ r : ScanData, r.success = false →
      (captureResume originalText (.body r) s).addCalls = s.addCalls ∧
      (captureResume originalText (.body r) s).scannedImages = s.scannedImages ∧
      (captureResume originalText (.body r) s).galleryItems = s.galleryItems) ∧
    ((captureResume originalText .fetchRejected s).addCalls = s.addCalls ∧
      (captureResume originalText .fetchRejected s).scannedImages = s.scannedImages ∧
      (captureResume originalText .fetchRejected s).galleryItems = s.galleryItems) ∧
    ((captureResume originalText .jsonRejected s).addCalls = s.addCalls ∧
      (captureResume originalText .jsonRejected s).scannedImages = s.scannedImages ∧
      (captureResume originalText .jsonRejected s).galleryItems = s.galleryItems) := by
  refine ⟨?_, ?_, ⟨rfl, rfl, rfl⟩, ⟨rfl, rfl, rfl⟩⟩
  · intro r hr
    have hc : (addScanToGallery r s).addCalls = s.addCalls + 1 := by
      unfold addScanToGallery updateStats
      dsimp only
      split <;> rfl
    simp only [captureResume, hr, if_true]
    cases r.detected <;> simp [showToast, hc]
  · intro r hr
    simp [captureResume, hr, showToast]

/-- Witness of C4: a successful response with `detected` false adds the page once; a
response with `success` false adds nothing. -/
theorem capture_adds_once_iff_success_witness :
    (captureResume "Capture"
        (.body { success := true, filename := "p1.jpg", url := "/scans/p1.jpg",
                 detected := false, error := "" }) initialState).addCalls = 0 + 1 ∧
    (captureResume "Capture"
        (.body { success := false, filename := "", url := "",
                 detected := false, error := "no image" }) initialState).scannedImages = [] :=
  ⟨((capture_adds_once_iff_success initialState "Capture").1
      { success := true, filename := "p1.jpg", url := "/scans/p1.jpg",
        detected := false, error := "" } rfl).1,
   ((capture_adds_once_iff_success initialState "Capture").2.1
      { success := false, filename := "", url := "",
        detected := false, error := "no image" } rfl).2.1⟩

/-! ## Compile: the order of the request -/

/-- The request body of a compile click handler run is the filename list. -/
theorem compileHandler_request (s : State) :
    (compileHandler s).compileRequests.getLast? = some s.scannedImages := by
  simp [compileHandler]

/-- A delete click whose handler receives the filename of its thumbnail is
`removeScan` of that filename. -/
theorem deleteClick_of_verbatim (argument : String → Option String) (i : Nat) (s : State)
    (item : GalleryItem) (hitem : s.galleryItems[i]? = some item)
    (harg : argument item.filename = some item.filename) :
    deleteClick argument i s = removeScan item.filename i s := by
  simp [deleteClick, hitem, harg]

/-- A delete click whose handler receives a string that is not in the filename list
(a filename the browser decodes into something else) takes the thumbnail out and
leaves the filename list as it is. -/
theorem deleteClick_of_decoded (argument : String → Option String) (i : Nat) (s : State)
    (item : GalleryItem) (g : String) (hitem : s.galleryItems[i]? = some item)
    (harg : argument item.filename = some g) (hg : g ∉ s.scannedImages) :
    (deleteClick argument i s).scannedImages = s.scannedImages ∧
    (deleteClick argument i s).galleryItems = s.galleryItems.eraseIdx i := by
  have hs : deleteClick argument i s = removeScan g i s := by
    simp [deleteClick, hitem, harg]
  rw [hs, removeScan_scannedImages, removeScan_galleryItems]
  refine ⟨?_, rfl⟩
  apply List.filter_eq_self.mpr
  intro a ha
  have : a ≠ g := fun e => hg (e ▸ ha)
  simpa using this

/-- Whatever the delete handlers receive, the filename list after a sequence of scans
and delete clicks is a sublist of the list it started from followed by the scanned
filenames in the order of scanning. -/
theorem runEvents_sublist (argument : String → Option String) (evs : List GalleryEvent)
    (s : State) :
    (runEvents argument s evs).scannedImages.Sublist (s.scannedImages ++ scannedNames evs) := by
  induction evs generalizing s with
  | nil => simp [runEvents, scannedNames]
  | cons ev evs ih =>
    cases ev with
    | scanned r =>
      have h := ih (addScanToGallery r s)
      rw [addScanToGallery_scannedImages, List.append_assoc] at h
      exact h
    | delete i =>
      have hstep : runEvents argument s (.delete i :: evs)
          = runEvents argument (deleteClick argument i s) evs := rfl
      rw [hstep]
      have hsub : (deleteClick argument i s).scannedImages.Sublist s.scannedImages := by
        unfold deleteClick
        split
        · split
          · rw [removeScan_scannedImages]
            exact List.filter_sublist _
          · exact List.Sublist.refl _
        · exact List.Sublist.refl _
      exact (ih (deleteClick argument i s)).trans
        (List.Sublist.append hsub (List.Sublist.refl _))

/-- While the scanned filenames are pairwise distinct and reach the delete handlers
unchanged, the displayed order stays the reverse of the filename list along scans
and delete clicks, and the filename list is the one `pagesOldestFirst` describes. -/
theorem runEvents_order (argument : String → Option String) (evs : List GalleryEvent)
    (s : State)
    (hinv : displayedFilenames s = s.scannedImages.reverse)
    (hnd : s.scannedImages.Nodup)
    (hd : (scannedNames evs).Nodup)
    (hdis : ∀ f ∈ scannedNames evs, f ∉ s.scannedImages)
    (hargs : ∀ f ∈ s.scannedImages, argument f = some f)
    (harge : ∀ f ∈ scannedNames evs, argument f = some f) :
    displayedFilenames (runEvents argument s evs)
      = (runEvents argument s evs).scannedImages.reverse ∧
    (runEvents argument s evs).scannedImages = pagesOldestFirst s.scannedImages evs := by
  induction evs generalizing s with
  | nil => exact ⟨hinv, rfl⟩
  | cons ev evs ih =>
    cases ev with
    | scanned r =>
      have hd2 := List.nodup_cons.mp hd
      have hstep : runEvents argument s (.scanned r :: evs)
          = runEvents argument (addScanToGallery r s) evs := rfl
      have hpages : pagesOldestFirst s.scannedImages (.scanned r :: evs)
          = pagesOldestFirst (addScanToGallery r s).scannedImages evs := by
        rw [addScanToGallery_scannedImages]
        rfl
      rw [hstep, hpages]
      apply ih (addScanToGallery r s)
      · simp [displayedFilenames, addScanToGallery_galleryItems,
          addScanToGallery_scannedImages, ← hinv]
      · rw [addScanToGallery_scannedImages]
        apply List.Nodup.append hnd (List.nodup_singleton _)
        intro a ha hb
        have hab : a = r.filename := by simpa using hb
        exact hdis r.filename (by simp [scannedNames]) (hab ▸ ha)
      · exact hd2.2
      · intro f hf
        rw [addScanToGallery_scannedImages]
        have h1 : f ∉ s.scannedImages := hdis f (by simp [scannedNames, hf])
        have h2 : f ≠ r.filename := fun e => hd2.1 (e ▸ hf)
        simp [h1, h2]
      · intro f hf
        rw [addScanToGallery_scannedImages] at hf
        rcases List.mem_append.mp hf with h | h
        · exact hargs f h
        · have hfr : f = r.filename := by simpa using h
          rw [hfr]
          exact harge r.filename (by simp [scannedNames])
      · intro f hf
        exact harge f (by simp [scannedNames, hf])
    | delete i =>
      have hstep : runEvents argument s (.delete i :: evs)
          = runEvents argument (deleteClick argument i s) evs := rfl
      have hlen : s.galleryItems.length = s.scannedImages.reverse.length := by
        have h := congrArg List.length hinv
        simpa [displayedFilenames] using h
      rw [hstep]
      cases hitem : s.galleryItems[i]? with
      | none =>
        have hs : deleteClick argument i s = s := by simp [deleteClick, hitem]
        have hle : s.scannedImages.reverse.length ≤ i := by
          rw [← hlen]
          exact List.getElem?_eq_none_iff.mp hitem
        have hpages : pagesOldestFirst s.scannedImages (.delete i :: evs)
            = pagesOldestFirst s.scannedImages evs := by
          show pagesOldestFirst (s.scannedImages.reverse.eraseIdx i).reverse evs = _
          rw [List.eraseIdx_of_length_le hle, List.reverse_reverse]
        rw [hs, hpages]
        exact ih s hinv hnd hd hdis hargs harge
      | some item =>
        have hrev : s.scannedImages.reverse[i]? = some item.filename := by
          rw [← hinv]
          simp [displayedFilenames, hitem]
        have hmem : item.filename ∈ s.scannedImages := by
          obtain ⟨hlt, he⟩ := List.getElem?_eq_some.mp hrev
          exact List.mem_reverse.mp (he ▸ List.getElem_mem hlt)
        have hs : deleteClick argument i s = removeScan item.filename i s :=
          deleteClick_of_verbatim argument i s item hitem (hargs _ hmem)
        have herase : s.scannedImages.reverse.eraseIdx i
            = (s.scannedImages.filter (fun g => g != item.filename)).reverse := by
          rw [eraseIdx_eq_filter_ne _ (List.nodup_reverse.mpr hnd) i _ hrev,
            List.filter_reverse]
        have hpages : pagesOldestFirst s.scannedImages (.delete i :: evs)
            = pagesOldestFirst (removeScan item.filename i s).scannedImages evs := by
          show pagesOldestFirst (s.scannedImages.reverse.eraseIdx i).reverse evs = _
          rw [herase, List.reverse_reverse, removeScan_scannedImages]
        rw [hs, hpages]
        apply ih (removeScan item.filename i s)
        · rw [removeScan_scannedImages]
          unfold displayedFilenames
          rw [removeScan_galleryItems, map_filename_eraseIdx]
          have hinv2 : s.galleryItems.map (fun item => item.filename)
              = s.scannedImages.reverse := hinv
          rw [hinv2, herase]
        · rw [removeScan_scannedImages]
          exact hnd.filter _
        · exact hd
        · intro f hf hmem2
          rw [removeScan_scannedImages] at hmem2
          exact hdis f hf (List.mem_filter.mp hmem2).1
        · intro f hf
          rw [removeScan_scannedImages] at hf
          exact hargs f (List.mem_filter.mp hf).1
        · exact harge

/-- C9, as stated, fails: after scanning `a.jpg` and then `b.jpg` the compile request
carries `[a.jpg, b.jpg]` while the gallery shows `b.jpg` first and `a.jpg`
second. -/
theorem compile_order_not_display_order :
    (compileClick (addScanToGallery (page "b.jpg")
        (addScanToGallery (page "a.jpg") initialState))).compileRequests
      = [["a.jpg", "b.jpg"]] ∧
    displayedFilenames (addScanToGallery (page "b.jpg")
        (addScanToGallery (page "a.jpg") initialState)) = ["b.jpg", "a.jpg"] ∧
    (compileClick (addScanToGallery (page "b.jpg")
        (addScanToGallery (page "a.jpg") initialState))).compileRequests.getLast?
      ≠ some (displayedFilenames (addScanToGallery (page "b.jpg")
        (addScanToGallery (page "a.jpg") initialState))) := by
  decide

/-- C9, amended: starting from an empty gallery, for every sequence of scans and delete
clicks in which the scanned filenames are pairwise distinct and reach the inline
delete handlers unchanged (`argument f = some f`), the filename sequence placed in
the compile request is `scannedImages` in its current order, and that order runs
from the oldest page to the most recent one: it is the list `pagesOldestFirst`
builds (a scan appends its page, a delete click takes out the page whose thumbnail
was clicked), hence a sublist of the scanned filenames in the order of scanning,
and it is the reverse of the order in which the gallery shows the pages. -/
theorem compile_order_is_reverse_display (argument : String → Option String) (s0 : State)
    (evs : List GalleryEvent)
    (h0 : s0.scannedImages = []) (hg : s0.galleryItems = [])
    (hd : (scannedNames evs).Nodup)
    (harg : ∀ f ∈ scannedNames evs, argument f = some f) :
    (compileHandler (runEvents argument s0 evs)).compileRequests.getLast?
      = some (runEvents argument s0 evs).scannedImages ∧
    (runEvents argument s0 evs).scannedImages = pagesOldestFirst [] evs ∧
    (runEvents argument s0 evs).scannedImages.Sublist (scannedNames evs) ∧
    (runEvents argument s0 evs).scannedImages
      = (displayedFilenames (runEvents argument s0 evs)).reverse := by
  have h := runEvents_order argument evs s0 (by simp [displayedFilenames, h0, hg])
    (by simp [h0]) hd (by simp [h0]) (by simp [h0]) harg
  have hsub := runEvents_sublist argument evs s0
  rw [h0, List.nil_append] at hsub
  refine ⟨compileHandler_request _, ?_, hsub, ?_⟩
  · rw [h.2, h0]
  · rw [h.1, List.reverse_reverse]

/-- Witness of C9, amended: scan `a.jpg`, `b.jpg`, `c.jpg`, then delete the thumbnail
shown second (`b.jpg`): the compile request would carry `[a.jpg, c.jpg]`, and the
gallery shows `c.jpg` then `a.jpg`. -/
theorem compile_order_is_reverse_display_witness :
    (scannedNames [.scanned (page "a.jpg"), .scanned (page "b.jpg"),
        .scanned (page "c.jpg"), .delete 1]).Nodup ∧
    (∀ f ∈ scannedNames [.scanned (page "a.jpg"), .scanned (page "b.jpg"),
        .scanned (page "c.jpg"), .delete 1], plainArgument f = some f) ∧
    (runEvents plainArgument initialState [.scanned (page "a.jpg"), .scanned (page "b.jpg"),
        .scanned (page "c.jpg"), .delete 1]).scannedImages = ["a.jpg", "c.jpg"] ∧
    displayedFilenames (runEvents plainArgument initialState [.scanned (page "a.jpg"),
        .scanned (page "b.jpg"), .scanned (page "c.jpg"), .delete 1]) = ["c.jpg", "a.jpg"] ∧
    (runEvents plainArgument initialState [.scanned (page "a.jpg"), .scanned (page "b.jpg"),
        .scanned (page "c.jpg"), .delete 1]).scannedImages
      = (displayedFilenames (runEvents plainArgument initialState [.scanned (page "a.jpg"),
          .scanned (page "b.jpg"), .scanned (page "c.jpg"), .delete 1])).reverse :=
  ⟨by decide, by decide, by decide, by decide,
   (compile_order_is_reverse_display plainArgument initialState
      [.scanned (page "a.jpg"), .scanned (page "b.jpg"), .scanned (page "c.jpg"), .delete 1]
      rfl rfl (by decide) (by decide)).2.2.2⟩

/-! ## Camera: flip and stream hand-over -/

/-- C5, evaluated on the code: with devices `[A, B]` and `A` started at load, one flip
activates `B` and a second flip activates `A`; but when `B` became active through
the camera dropdown, `currentDeviceIndex` is still 0, so one flip requests the
device at index 1 and the active device stays `B`, whereas its cyclic successor
is `A`. -/
theorem flip_after_dropdown_keeps_device :
    activeDevice startedOnA = some "A" ∧
    activeDevice (flipGranted twoCameras startedOnA) = some "B" ∧
    activeDevice (flipGranted twoCameras (flipGranted twoCameras startedOnA)) = some "A" ∧
    activeDevice (selectGranted "B" startedOnA) = some "B" ∧
    (selectGranted "B" startedOnA).currentDeviceIndex = 0 ∧
    cyclicSuccessor "B" twoCameras = some "A" ∧
    activeDevice (flipGranted twoCameras (selectGranted "B" startedOnA)) = some "B" := by
  decide

/-- C6, evaluated on the code: the dropdown is changed to `A` and then to `B` before the
first request is granted.  Each call of `startCamera` finds `currentStream` empty,
so nothing is stopped; both grants then arrive, and two acquired streams have
tracks that were never stopped, the first of which the script no longer
references. -/
theorem overlapping_startCamera_leaks_stream :
    liveStreams (startCameraResume 0 true (startCameraResume 0 true
        (cameraSelectChange "B" (cameraSelectChange "A" initialState))))
      = [{ id := 0, deviceId := "A", stopped := false },
         { id := 1, deviceId := "B", stopped := false }] ∧
    (startCameraResume 0 true (startCameraResume 0 true
        (cameraSelectChange "B" (cameraSelectChange "A" initialState)))).currentStream
      = some 1 := by
  decide

/-! ## Compile: the control while a request is outstanding -/

/-- C7, evaluated on the code: with one page scanned, the compile click disables the
control and one request is outstanding; a capture response that arrives next runs
`addScanToGallery`, whose `updateStats` enables the control again while the
request is still outstanding, and a second click then sends a second request.
Deleting one of two pages while a request is outstanding (the delete button of the
first thumbnail, that of `p2.jpg`, runs `removeScan('p2.jpg', this)`) enables the
control in the same way. -/
theorem compile_control_enabled_while_outstanding :
    compiling.compileDisabled = true ∧ compiling.compileInFlight = 1 ∧
    (captureResume "Capture" (.body (page "p2.jpg"))
        (captureClick "data:image/jpeg;base64," compiling)).compileInFlight = 1 ∧
    (captureResume "Capture" (.body (page "p2.jpg"))
        (captureClick "data:image/jpeg;base64," compiling)).compileDisabled = false ∧
    (compileClick (captureResume "Capture" (.body (page "p2.jpg"))
        (captureClick "data:image/jpeg;base64," compiling))).compileInFlight = 2 ∧
    (removeScan "p2.jpg" 0 (compileClick (addScanToGallery (page "p2.jpg")
        (addScanToGallery (page "p1.jpg") initialState)))).compileInFlight = 1 ∧
    (removeScan "p2.jpg" 0 (compileClick (addScanToGallery (page "p2.jpg")
        (addScanToGallery (page "p1.jpg") initialState)))).compileDisabled = false := by
  decide

/-- C8, evaluated on the code: scan `p1.jpg`, click compile, delete `p1.jpg` while the
request is outstanding (the delete button of its thumbnail, the only one, runs
`removeScan('p1.jpg', this)`), then the response arrives.  The `finally` of the compile
handler enables the control although the filename list is empty, and the next
click sends a compile request with an empty filename list. -/
theorem compile_enabled_with_empty_list :
    initialState.scannedImages = [] ∧ initialState.compileDisabled = true ∧
    (removeScan "p1.jpg" 0 compiling).scannedImages = [] ∧
    (removeScan "p1.jpg" 0 compiling).compileDisabled = true ∧
    (compileResume (.body true "/downloads/out.pdf")
        (removeScan "p1.jpg" 0 compiling)).scannedImages = [] ∧
    (compileResume (.body true "/downloads/out.pdf")
        (removeScan "p1.jpg" 0 compiling)).compileDisabled = false ∧
    (compileClick (compileResume (.body true "/downloads/out.pdf")
        (removeScan "p1.jpg" 0 compiling))).compileRequests = [["p1.jpg"], []] := by
  decide

end SmartDocScanner
